import Mathlib

/-!
Shallow embedding of `httptestutil` (package `httptestutil`, file
`httptestutil.go`, the newer of the two source variants, which the spec
designates as the target behaviour).

Modelling conventions:
* `testing.T` is modelled by `TState`: the ordered list of non-fatal failure
  messages reported via `t.Errorf`, plus an `Option String` that is set by
  `t.Fatal` (which in Go stops the rest of the sub-test body, modelled by
  a guard that skips the remaining steps once `fatal` is set).
* `http.Request` headers are modelled as a finite map `String → Option String`
  (Go's `http.Header` under `Set`/`Get`, with name canonicalisation abstracted
  away: the claims only use consistently-spelled header names).
* `http.NewRequest` is external library code; the runner is parameterised by
  `newRequest : String → String → String → Option Request` (method, route,
  body; `none` models a construction error).
* `encoding/json.Unmarshal` into `map[string]interface{}` is external library
  code; the JSON assertions are parameterised by
  `jsonParse : String → Option (List (String × JValue))`, where `none` models
  a parse error (in which case the Go code leaves the map `nil`, modelled by
  the empty association list) and `some obj` a successful decode.
* `regexp.MatchString` is external library code, modelled by `RegexpModel`:
  a validity predicate on patterns and a match function, with the Go library
  fact that `MatchString` returns `false` for a pattern that does not compile.
* `json.Marshal` inside `RequestJSON` runs at configuration-build time and
  panics on error; `RequestJSON` therefore takes the marshal outcome
  (`Except String String`) and returns `Except String TestOption`, where
  `Except.error` models the panic that aborts the whole run before any case
  executes.
* The runner additionally threads a ghost trace of `Event`s recording which
  step ran and in which order; user-supplied checks, modifiers, assertions and
  handlers cannot touch the trace, so it is a faithful observation of the
  execution order of `TestSet.Run`'s sub-test body.
-/

namespace Httptestutil

/-- Model of `testing.T` for one sub-test: `failures` collects the messages of
`t.Errorf` calls in order, `fatal` is set by `t.Fatal`. -/
structure TState where
  failures : List String
  fatal : Option String
  deriving DecidableEq, Repr

def TState.empty : TState := ⟨[], none⟩

def TState.errorf (t : TState) (msg : String) : TState :=
  { t with failures := t.failures ++ [msg] }

def TState.fatalize (t : TState) (msg : String) : TState :=
  { t with fatal := some msg }

def TState.isFatal (t : TState) : Bool := t.fatal.isSome

/-- A sub-test succeeds when it reported no failure and no fatal error. -/
def TState.success (t : TState) : Prop := t.failures = [] ∧ t.fatal = none

/-- Model of `http.Request`: method, route, body and a header map under
`Header.Set` / `Header.Get` semantics. -/
structure Request where
  method : String
  route : String
  body : String
  headers : String → Option String

def Request.setHeader (req : Request) (k v : String) : Request :=
  { req with headers := fun k2 => if k2 = k then some v else req.headers k2 }

def Request.getHeader (req : Request) (k : String) : Option String :=
  req.headers k

/-- Model of `httptest.ResponseRecorder`; `httptest.NewRecorder` starts with
`Code = 200`, empty headers and an empty body. -/
structure ResponseRecorder where
  code : Int
  headers : String → Option String
  body : String

def ResponseRecorder.default : ResponseRecorder :=
  ⟨200, fun _ => none, ""⟩

/-- Go `type Check func(*testing.T)`. -/
def Check : Type := TState → TState

/-- Go `type ResponseAssertion func(*testing.T, *httptest.ResponseRecorder)`. -/
def ResponseAssertion : Type := TState → ResponseRecorder → TState

/-- Go `type RequestModifier func(req *http.Request)`. -/
def RequestModifier : Type := Request → Request

/-- Go `http.Handler`: `ServeHTTP(recorder, req)` mutates the recorder it is
given; modelled as a function from the request and the initial recorder to the
final recorder. -/
def Handler : Type := Request → ResponseRecorder → ResponseRecorder

/-- Go `type TestConfig struct` of the newer source variant. -/
structure TestConfig where
  name : String
  method : String
  route : String
  body : String
  modifiers : List RequestModifier
  assertions : List ResponseAssertion
  precheck : List Check
  postcheck : List Check

/-- Go `type TestOption func(*TestConfig)`. -/
def TestOption : Type := TestConfig → TestConfig

/-- Go `type TestSet []TestConfig`. -/
abbrev TestSet : Type := List TestConfig

/-- Go `func Test(name string, options ...TestOption) TestConfig`: start from
the all-empty configuration and apply the options left to right. -/
def Test (name : String) (options : List TestOption) : TestConfig :=
  options.foldl (fun test option => option test)
    ⟨name, "", "", "", [], [], [], []⟩

/-- Ghost events recording which step of the sub-test body ran. -/
inductive Event where
  | pre (i : Nat)
  | construct
  | modify (i : Nat)
  | dispatch
  | assertion (i : Nat)
  | post (i : Nat)
  deriving DecidableEq, Repr

/-- Sub-test state together with the ghost trace. -/
structure TracedState where
  st : TState
  trace : List Event

/-- Run a list of checks (`for _, check := range ... { check(t) }`), skipping
the remainder once `t.Fatal` has fired (Go's `Goexit` semantics), and record
one ghost event per check that actually ran. -/
def runChecksT (tag : Nat → Event) : Nat → TracedState → List Check → TracedState
  | _, s, [] => s
  | i, s, check :: rest =>
    if s.st.isFatal then s
    else runChecksT tag (i + 1) ⟨check s.st, s.trace ++ [tag i]⟩ rest

/-- Run the response assertions (`for _, assert := range ... { assert(t, recorder) }`)
with the same fatal-skip semantics and ghost events. -/
def runAssertsT : Nat → ResponseRecorder → TracedState → List ResponseAssertion → TracedState
  | _, _, s, [] => s
  | i, rr, s, assertFn :: rest =>
    if s.st.isFatal then s
    else runAssertsT (i + 1) rr ⟨assertFn s.st rr, s.trace ++ [Event.assertion i]⟩ rest

/-- Apply the request modifiers in order (`for _, modifier := range ... { modifier(req) }`),
recording one ghost event per modifier. -/
def applyModsT : Nat → Request → List Event → List RequestModifier → Request × List Event
  | _, req, tr, [] => (req, tr)
  | i, req, tr, m :: rest => applyModsT (i + 1) (m req) (tr ++ [Event.modify i]) rest

/-- Modifier application as the runner performs it, without the ghost trace. -/
def applyModifiers (mods : List RequestModifier) (req : Request) : Request :=
  mods.foldl (fun r m => m r) req

/-- The body of one sub-test of `TestSet.Run`, with the ghost trace:
pre-checks, `http.NewRequest` (a failure is `t.Fatal`, which ends the
sub-test), modifiers, `httptest.NewRecorder` plus `handler.ServeHTTP`,
assertions, post-checks. -/
def runCaseT (newRequest : String → String → String → Option Request)
    (handler : Handler) (test : TestConfig) : TracedState :=
  let s1 := runChecksT Event.pre 0 ⟨TState.empty, []⟩ test.precheck
  if s1.st.isFatal then s1
  else
    match newRequest test.method test.route test.body with
    | none => ⟨s1.st.fatalize "request construction error", s1.trace⟩
    | some req =>
      let s2 : TracedState := ⟨s1.st, s1.trace ++ [Event.construct]⟩
      let p := applyModsT 0 req s2.trace test.modifiers
      let recorder := handler p.1 ResponseRecorder.default
      let s3 : TracedState := ⟨s2.st, p.2 ++ [Event.dispatch]⟩
      let s4 := runAssertsT 0 recorder s3 test.assertions
      runChecksT Event.post 0 s4 test.postcheck

/-- The observable `testing.T` outcome of one sub-test. -/
def runCase (newRequest : String → String → String → Option Request)
    (handler : Handler) (test : TestConfig) : TState :=
  (runCaseT newRequest handler test).st

/-- Go `func (tests TestSet) Run(t *testing.T, handler http.Handler)`: one
sub-test per case, keyed by the case name, in order. -/
def TestSet.Run (newRequest : String → String → String → Option Request)
    (handler : Handler) (tests : TestSet) : List (String × TState) :=
  tests.map (fun test => (test.name, runCase newRequest handler test))

/-- Go `func RequestMethod(method string) TestOption`. -/
def RequestMethod (method : String) : TestOption :=
  fun test => { test with method := method }

/-- The request modifier registered by `RequestHeader`:
`req.Header.Set(header, value)`. -/
def setHeaderModifier (header value : String) : RequestModifier :=
  fun req => req.setHeader header value

/-- Go `func RequestHeader(header string, value string) TestOption`. -/
def RequestHeader (header value : String) : TestOption :=
  fun test => { test with modifiers := test.modifiers ++ [setHeaderModifier header value] }

/-- The request modifier registered by `RequestJSON`:
`req.Header.Set("Content-Type", "application/json")`. -/
def setContentTypeJSON : RequestModifier :=
  fun req => req.setHeader "Content-Type" "application/json"

/-- The option returned by `RequestJSON` once `json.Marshal` succeeded with
text `s`: append the content-type modifier and overwrite the body with `s`. -/
def requestJSONOption (s : String) : TestOption :=
  fun test =>
    { test with
      modifiers := test.modifiers ++ [setContentTypeJSON]
      body := s }

/-- Go `func RequestJSON(d interface{}) TestOption`: `json.Marshal(d)` runs at
configuration-build time; on error the Go code panics (modelled by
`Except.error`, which aborts configuration building and hence the whole run),
otherwise it returns the option `requestJSONOption s`. The marshal outcome is
the parameter, since `encoding/json` is external library code. -/
def RequestJSON (marshalResult : Except String String) : Except String TestOption :=
  match marshalResult with
  | Except.error e => Except.error e
  | Except.ok s => Except.ok (requestJSONOption s)

/-- Go `func RequestBody(body string) TestOption`. -/
def RequestBody (body : String) : TestOption :=
  fun test => { test with body := body }

/-- Go `func RequestRel(rel string) TestOption`. -/
def RequestRel (rel : String) : TestOption :=
  fun test => { test with route := rel }

/-- Evaluation of a Go `TestSet` literal whose options may have been produced
by a panicking constructor such as `RequestJSON`: every option of every case
is evaluated before `Run` can be called, so a single `Except.error` anywhere
aborts the whole run before any case executes. -/
def buildOptions : List (Except String TestOption) → Except String (List TestOption)
  | [] => Except.ok []
  | o :: os =>
    match o with
    | Except.error e => Except.error e
    | Except.ok opt =>
      match buildOptions os with
      | Except.error e => Except.error e
      | Except.ok opts => Except.ok (opt :: opts)

/-- Build a whole `TestSet` literal from per-case names and option outcomes;
any panic during option construction propagates. -/
def buildTestSet : List (String × List (Except String TestOption)) → Except String TestSet
  | [] => Except.ok []
  | (name, opts) :: rest =>
    match buildOptions opts with
    | Except.error e => Except.error e
    | Except.ok options =>
      match buildTestSet rest with
      | Except.error e => Except.error e
      | Except.ok tests => Except.ok (Test name options :: tests)

/-- Go `func responseAssertion(assertion ResponseAssertion) TestOption`. -/
def responseAssertion (assertion : ResponseAssertion) : TestOption :=
  fun test => { test with assertions := test.assertions ++ [assertion] }

/-- The assertion closure inside `ResponseStatus`. -/
def responseStatusAssert (expectedStatus : Int) : ResponseAssertion :=
  fun t recorder =>
    if expectedStatus ≠ recorder.code then
      t.errorf ("Unexpected status code: recieved [" ++ toString recorder.code
        ++ "], want [" ++ toString expectedStatus ++ "]")
    else t

/-- Go `func ResponseStatus(expectedStatus int) TestOption`. -/
def ResponseStatus (expectedStatus : Int) : TestOption :=
  responseAssertion (responseStatusAssert expectedStatus)

/-- The assertion closure inside `ResponseBody`. -/
def responseBodyAssert (expectedBody : String) : ResponseAssertion :=
  fun t recorder =>
    if recorder.body ≠ expectedBody then
      t.errorf ("Unexpected body: received " ++ recorder.body
        ++ " expected " ++ expectedBody)
    else t

/-- Go `func ResponseBody(expectedBody string) TestOption`. -/
def ResponseBody (expectedBody : String) : TestOption :=
  responseAssertion (responseBodyAssert expectedBody)

/-- The assertion closure inside `ResponseHeader`; Go `Header().Get` yields
the empty string for an absent header. -/
def responseHeaderAssert (header expected : String) : ResponseAssertion :=
  fun t rr =>
    let actual := (rr.headers header).getD ""
    if actual ≠ expected then
      t.errorf ("Unexpected response header value for " ++ header
        ++ ": received " ++ actual ++ " expected " ++ expected)
    else t

/-- Go `func ResponseHeader(header string, expected string) TestOption`. -/
def ResponseHeader (header expected : String) : TestOption :=
  responseAssertion (responseHeaderAssert header expected)

/-- Values of a decoded `map[string]interface{}`: Go decodes JSON strings to
`string`, numbers to `float64` (the numeric payload is irrelevant to the
claims and modelled as `Int`), booleans to `bool`, `null` to the nil
interface, arrays to `[]interface{}` and objects to nested maps. -/
inductive JValue where
  | str : String → JValue
  | num : Int → JValue
  | bool : Bool → JValue
  | null : JValue
  | arr : List JValue → JValue
  | obj : List (String × JValue) → JValue

/-- Go map indexing `response[field]`: `none` models the nil interface
returned for an absent key (and for indexing the nil map left behind by a
failed `json.Unmarshal`). -/
def jLookup (response : List (String × JValue)) (field : String) : Option JValue :=
  (response.find? (fun p => p.1 = field)).map Prod.snd

/-- Go's `response[field] != expected` with `expected` a string: the interface
comparison holds exactly when the value is present, has dynamic type `string`
and is equal; the nil interface and every non-string value compare unequal to
every string (including the empty string). This is `true` when they are
EQUAL. -/
def goEqStr : Option JValue → String → Bool
  | some (JValue.str s), expected => s = expected
  | _, _ => false

/-- Rendering of a decoded value inside failure messages (`%s`); the precise
text is irrelevant to the claims. -/
def showJ : Option JValue → String
  | some (JValue.str s) => s
  | some _ => "<non-string value>"
  | none => "<nil>"

/-- The assertion closure inside `ResponseJsonField`, parameterised by the
external `json.Unmarshal` outcome on the body. Note the Go code does not
return after the parse-failure `t.Errorf`: it falls through to the equality
check against the nil map. -/
def responseJsonFieldAssert (jsonParse : String → Option (List (String × JValue)))
    (field expected : String) : ResponseAssertion :=
  fun t rr =>
    let parsed := jsonParse rr.body
    let t1 := match parsed with
      | none => t.errorf ("Could not JSON parse response body: received " ++ rr.body)
      | some _ => t
    let response := match parsed with
      | none => ([] : List (String × JValue))
      | some obj => obj
    if goEqStr (jLookup response field) expected then t1
    else
      t1.errorf ("Unexpected JSON field value for " ++ field ++ ": received "
        ++ showJ (jLookup response field) ++ " expected " ++ expected)

/-- Go `func ResponseJsonField(field string, expected string) TestOption`. -/
def ResponseJsonField (jsonParse : String → Option (List (String × JValue)))
    (field expected : String) : TestOption :=
  responseAssertion (responseJsonFieldAssert jsonParse field expected)

/-- Model of Go `regexp.MatchString(pattern, s)`: `valid` says whether the
pattern compiles, `matchString` is the boolean result; when the pattern does not
compile, `MatchString` returns `false` together with the (discarded) compile
error. -/
structure RegexpModel where
  valid : String → Bool
  matchString : String → String → Bool
  invalid_no_match : ∀ p s, valid p = false → matchString p s = false

/-- The assertion closure inside `ResponseJsonFieldPattern`: parse the body,
falling through on parse failure exactly as `ResponseJsonField` does, then
type-assert the field value to `string`; a missing or non-string value reports
a failure, otherwise `regexp.MatchString`'s boolean decides (its error is
discarded). -/
def responseJsonFieldPatternAssert (jsonParse : String → Option (List (String × JValue)))
    (rx : RegexpModel) (field pattern : String) : ResponseAssertion :=
  fun t rr =>
    let parsed := jsonParse rr.body
    let t1 := match parsed with
      | none => t.errorf ("Could not JSON parse response body: received " ++ rr.body)
      | some _ => t
    let response := match parsed with
      | none => ([] : List (String × JValue))
      | some obj => obj
    match jLookup response field with
    | some (JValue.str actual) =>
      if rx.matchString pattern actual then t1
      else
        t1.errorf ("Unexpected JSON field value for " ++ field ++ ": received "
          ++ actual ++ " expected pattern " ++ pattern)
    | _ =>
      t1.errorf ("Unexepected missing or non-string JSON field value for " ++ field)

/-- Go `func ResponseJsonFieldPattern(field string, pattern string) TestOption`. -/
def ResponseJsonFieldPattern (jsonParse : String → Option (List (String × JValue)))
    (rx : RegexpModel) (field pattern : String) : TestOption :=
  responseAssertion (responseJsonFieldPatternAssert jsonParse rx field pattern)

/-- Go `func Before(check Check) TestOption`:
`test.precheck = append(test.precheck, check)`. -/
def Before (check : Check) : TestOption :=
  fun test => { test with precheck := test.precheck ++ [check] }

/-- Go `func After(check Check) TestOption`, faithful to the source line
`test.precheck = append(test.postcheck, check)`: the appended list is built
from `postcheck` but ASSIGNED to `precheck`. -/
def After (check : Check) : TestOption :=
  fun test => { test with precheck := test.postcheck ++ [check] }

/-! Helper lemmas about the traced runner. -/

theorem isFatal_eq_false {t : TState} (h : t.isFatal = false) : t.fatal = none := by
  rw [TState.isFatal] at h
  exact Option.not_isSome_iff_eq_none.mp (by simp [h])

theorem runChecksT_trace (tag : Nat → Event) :
    ∀ (cs : List Check) (i : Nat) (s : TracedState),
      (runChecksT tag i s cs).st.fatal = none →
      s.st.fatal = none ∧
      (runChecksT tag i s cs).trace
        = s.trace ++ (List.range cs.length).map (fun j => tag (i + j)) := by
  intro cs
  induction cs with
  | nil =>
    intro i s h
    exact ⟨h, by simp [runChecksT]⟩
  | cons c rest ih =>
    intro i s h
    by_cases hf : s.st.isFatal = true
    · rw [runChecksT, if_pos hf] at h
      rw [TState.isFatal, h] at hf
      simp at hf
    · rw [runChecksT, if_neg hf] at h ⊢
      have hs : s.st.fatal = none := isFatal_eq_false (Bool.not_eq_true _ ▸ hf)
      refine ⟨hs, ?_⟩
      obtain ⟨-, htr⟩ := ih (i + 1) ⟨c s.st, s.trace ++ [tag i]⟩ h
      rw [htr]
      simp only [List.length_cons, List.range_succ_eq_map, List.map_cons, List.map_map,
        Nat.add_zero, List.append_assoc, List.cons_append, List.nil_append]
      congr 1
      congr 1
      apply List.map_congr_left
      intro a _
      simp only [Function.comp_apply]
      congr 1
      omega

theorem runAssertsT_trace :
    ∀ (al : List ResponseAssertion) (i : Nat) (rr : ResponseRecorder) (s : TracedState),
      (runAssertsT i rr s al).st.fatal = none →
      s.st.fatal = none ∧
      (runAssertsT i rr s al).trace
        = s.trace ++ (List.range al.length).map (fun j => Event.assertion (i + j)) := by
  intro al
  induction al with
  | nil =>
    intro i rr s h
    exact ⟨h, by simp [runAssertsT]⟩
  | cons a rest ih =>
    intro i rr s h
    by_cases hf : s.st.isFatal = true
    · rw [runAssertsT, if_pos hf] at h
      rw [TState.isFatal, h] at hf
      simp at hf
    · rw [runAssertsT, if_neg hf] at h ⊢
      have hs : s.st.fatal = none := isFatal_eq_false (Bool.not_eq_true _ ▸ hf)
      refine ⟨hs, ?_⟩
      obtain ⟨-, htr⟩ := ih (i + 1) rr ⟨a s.st rr, s.trace ++ [Event.assertion i]⟩ h
      rw [htr]
      simp only [List.length_cons, List.range_succ_eq_map, List.map_cons, List.map_map,
        Nat.add_zero, List.append_assoc, List.cons_append, List.nil_append]
      congr 1
      congr 1
      apply List.map_congr_left
      intro a2 _
      simp only [Function.comp_apply]
      congr 1
      omega

theorem applyModsT_trace :
    ∀ (ms : List RequestModifier) (i : Nat) (req : Request) (tr : List Event),
      (applyModsT i req tr ms).2
        = tr ++ (List.range ms.length).map (fun j => Event.modify (i + j)) := by
  intro ms
  induction ms with
  | nil => intro i req tr; simp [applyModsT]
  | cons m rest ih =>
    intro i req tr
    rw [applyModsT, ih]
    simp only [List.length_cons, List.range_succ_eq_map, List.map_cons, List.map_map,
      Nat.add_zero, List.append_assoc, List.cons_append, List.nil_append]
    congr 1
    congr 1
    apply List.map_congr_left
    intro a _
    simp only [Function.comp_apply]
    congr 1
    omega

theorem applyModsT_fst :
    ∀ (ms : List RequestModifier) (i : Nat) (req : Request) (tr : List Event),
      (applyModsT i req tr ms).1 = applyModifiers ms req := by
  intro ms
  induction ms with
  | nil => intro i req tr; simp [applyModsT, applyModifiers]
  | cons m rest ih =>
    intro i req tr
    rw [applyModsT, ih]
    simp [applyModifiers]

/-! Concrete fixtures used by witnesses: a `newRequest` model that always
succeeds with the given fields and empty headers, an identity handler, and a
small fully-populated configuration. -/

def wNewRequest : String → String → String → Option Request :=
  fun m r b => some ⟨m, r, b, fun _ => none⟩

def wHandler : Handler := fun _ rec => rec

def wCheck : Check := fun t => t

def wReq : Request := ⟨"GET", "/", "", fun _ => none⟩

def wConfig : TestConfig :=
  ⟨"t", "GET", "/", "", [setHeaderModifier "X" "1"], [responseStatusAssert 200],
    [wCheck], [wCheck]⟩

/-- C4: for every case of a test set, the sub-test body run by `TestSet.Run`
executes exactly: all pre-checks in registration order, then construction of
one request from the stored method, route and body, then all request
modifiers in registration order, then a single dispatch to the handler with a
recording adapter, then all response assertions in registration order, then
all post-checks in registration order — witnessed by the ghost trace of the
run, provided request construction succeeds and no step aborted the sub-test
fatally. -/
theorem run_order (newRequest : String → String → String → Option Request)
    (handler : Handler) (tests : TestSet) (test : TestConfig) (req : Request)
    (htest : test ∈ tests)
    (hreq : newRequest test.method test.route test.body = some req)
    (hok : (runCaseT newRequest handler test).st.fatal = none) :
    (test.name, runCase newRequest handler test) ∈ TestSet.Run newRequest handler tests ∧
    (runCaseT newRequest handler test).trace
      = (List.range test.precheck.length).map Event.pre
        ++ [Event.construct]
        ++ (List.range test.modifiers.length).map Event.modify
        ++ [Event.dispatch]
        ++ (List.range test.assertions.length).map Event.assertion
        ++ (List.range test.postcheck.length).map Event.post := by
  refine ⟨List.mem_map_of_mem _ htest, ?_⟩
  unfold runCaseT at hok ⊢
  by_cases hf : (runChecksT Event.pre 0 ⟨TState.empty, []⟩ test.precheck).st.isFatal = true
  · rw [if_pos hf] at hok
    rw [TState.isFatal, hok] at hf
    simp at hf
  · rw [if_neg hf] at hok ⊢
    rw [hreq] at hok ⊢
    simp only at hok ⊢
    obtain ⟨h4, htrPost⟩ := runChecksT_trace Event.post test.postcheck 0 _ hok
    rw [htrPost]
    obtain ⟨h3, htrA⟩ := runAssertsT_trace test.assertions 0 _ _ h4
    rw [htrA]
    obtain ⟨-, htrPre⟩ := runChecksT_trace Event.pre test.precheck 0 ⟨TState.empty, []⟩ h3
    rw [applyModsT_trace, htrPre]
    simp [List.append_assoc]

/-- Witness for `run_order` at a concrete configuration with one pre-check,
one modifier, one assertion and one post-check. -/
theorem run_order_witness :
    (runCaseT wNewRequest wHandler wConfig).trace
      = [Event.pre 0, Event.construct, Event.modify 0, Event.dispatch,
         Event.assertion 0, Event.post 0] := by
  have h := run_order wNewRequest wHandler [wConfig] wConfig wReq (by simp) rfl rfl
  rw [h.2]
  rfl

def wHandler405 : Handler := fun _ rec => { rec with code := 405 }

def wReqEmpty : Request := ⟨"", "", "", fun _ => none⟩

/-- C6: the assertion produced by `ResponseStatus E` reports a failure iff
`E` differs from the captured status code, and a case whose only assertion is
`ResponseStatus E`, run against a handler that always responds with status
`S`, fails iff `E ≠ S` (given that request construction succeeds). -/
theorem responseStatus_spec (newRequest : String → String → String → Option Request)
    (handler : Handler) (name : String) (E S : Int) (req : Request)
    (hS : ∀ q rec, (handler q rec).code = S)
    (hreq : newRequest "" "" "" = some req) :
    (∀ (t : TState) (rr : ResponseRecorder),
        (responseStatusAssert E t rr).failures ≠ t.failures ↔ E ≠ rr.code) ∧
    ((runCase newRequest handler (Test name [ResponseStatus E])).success ↔ E = S) := by
  constructor
  · intro t rr
    by_cases hE : E = rr.code
    · simp [responseStatusAssert, hE]
    · simp [responseStatusAssert, hE, TState.errorf]
  · simp only [runCase, runCaseT, Test, List.foldl, ResponseStatus, responseAssertion]
    simp [runChecksT, runAssertsT, applyModsT, hreq, TState.empty, TState.isFatal, hS,
      responseStatusAssert, TState.success, TState.errorf]
    by_cases hES : E = S
    · simp [hES]
    · simp [hES]

/-- Witness for `responseStatus_spec`: expected 405 against a handler that
always answers 405 succeeds. -/
theorem responseStatus_spec_witness :
    (runCase wNewRequest wHandler405 (Test "t" [ResponseStatus 405])).success :=
  ((responseStatus_spec wNewRequest wHandler405 "t" 405 405 wReqEmpty
    (fun _ _ => rfl) rfl).2).mpr rfl

def wCheckA : Check := fun t => t.errorf "A"

def wCheckB : Check := fun t => t.errorf "B"

def wFailCheck : Check := fun t => t.errorf "boom"

/-- C1: evaluation of the source's `After` at the input
`Test("x", Before(checkB), After(checkA))`. Because the body of `After` is
`test.precheck = append(test.postcheck, check)`, the check ends up in
`precheck` (replacing the check registered by `Before`), `postcheck` stays
empty, and the run reports only the failure of `checkA`, emitted before
request construction (ghost trace `pre 0` precedes `construct`). -/
theorem after_misregisters :
    (Test "x" [Before wCheckB, After wCheckA]).precheck = [wCheckA] ∧
    (Test "x" [Before wCheckB, After wCheckA]).postcheck = [] ∧
    (runCase wNewRequest wHandler (Test "x" [Before wCheckB, After wCheckA])).failures
      = ["A"] ∧
    (runCaseT wNewRequest wHandler (Test "x" [Before wCheckB, After wCheckA])).trace
      = [Event.pre 0, Event.construct, Event.dispatch] :=
  ⟨rfl, rfl, rfl, rfl⟩

/-- C3 (counterexample): a case with no assertions whose construction
succeeds can still fail: a pre-check registered with `Before` that reports a
failure marks the sub-test failed. -/
theorem no_assertions_counterexample :
    (Test "x" [Before wFailCheck]).assertions = [] ∧
    wNewRequest "" "" "" = some wReqEmpty ∧
    ¬ (runCase wNewRequest wHandler (Test "x" [Before wFailCheck])).success := by
  refine ⟨rfl, rfl, fun h => ?_⟩
  exact absurd h.1 (by decide)

/-- C3 (amended): for every case with no assertions and no pre- or
post-checks registered, run against any handler, the sub-test reports success
provided request construction does not fail. -/
theorem no_assertions_success (newRequest : String → String → String → Option Request)
    (handler : Handler) (test : TestConfig) (req : Request)
    (hA : test.assertions = []) (hPre : test.precheck = []) (hPost : test.postcheck = [])
    (hreq : newRequest test.method test.route test.body = some req) :
    (runCase newRequest handler test).success := by
  simp [runCase, runCaseT, hA, hPre, hPost, runChecksT, runAssertsT, hreq,
    TState.empty, TState.isFatal, TState.success]

/-- Witness for `no_assertions_success`. -/
theorem no_assertions_success_witness :
    (runCase wNewRequest wHandler (Test "w3" [RequestMethod "GET"])).success :=
  no_assertions_success wNewRequest wHandler (Test "w3" [RequestMethod "GET"])
    ⟨"GET", "", "", fun _ => none⟩ rfl rfl rfl rfl

theorem buildOptions_error :
    ∀ (opts : List (Except String TestOption)) (e : String),
      Except.error e ∈ opts → ∀ res, buildOptions opts ≠ Except.ok res := by
  intro opts
  induction opts with
  | nil => intro e h; cases h
  | cons o os ih =>
    intro e h res
    rcases List.mem_cons.mp h with h1 | h1
    · rw [← h1, buildOptions]
      simp
    · cases o with
      | error e2 => rw [buildOptions]; simp
      | ok opt =>
        rw [buildOptions]
        cases hb : buildOptions os with
        | error e2 => simp
        | ok opts2 => exact absurd hb (ih e h1 opts2)

theorem buildTestSet_error :
    ∀ (cases : List (String × List (Except String TestOption)))
      (name : String) (opts : List (Except String TestOption)) (e : String),
      (name, opts) ∈ cases → Except.error e ∈ opts →
      ∀ ts, buildTestSet cases ≠ Except.ok ts := by
  intro cases
  induction cases with
  | nil => intro name opts e h; cases h
  | cons c rest ih =>
    intro name opts e h he ts
    rcases List.mem_cons.mp h with h1 | h1
    · rw [← h1, buildTestSet]
      cases hb : buildOptions opts with
      | error e2 => simp
      | ok opts2 => exact absurd hb (buildOptions_error opts e he opts2)
    · obtain ⟨n2, os2⟩ := c
      rw [buildTestSet]
      cases hb : buildOptions os2 with
      | error e2 => simp
      | ok opts2 =>
        cases hrest : buildTestSet rest with
        | error e2 => simp
        | ok ts2 => exact absurd hrest (ih name opts e h1 he ts2)

/-- C5: `RequestJSON` runs serialization at configuration-build time; a
serialization failure panics (no option is produced, and evaluating any test
set containing such an option aborts before any case executes), while on
success the produced option overwrites the case body with the JSON text and
appends a request modifier that sets the Content-Type header to
application/json on the outgoing request. -/
theorem requestJSON_spec :
    (∀ e, RequestJSON (Except.error e) = Except.error e) ∧
    (∀ (cases : List (String × List (Except String TestOption)))
        (name : String) (opts : List (Except String TestOption)) (e : String),
        (name, opts) ∈ cases → Except.error e ∈ opts →
        ∀ ts, buildTestSet cases ≠ Except.ok ts) ∧
    (∀ (s : String) (opt : TestOption), RequestJSON (Except.ok s) = Except.ok opt →
        ∀ (test : TestConfig),
          (opt test).body = s ∧
          (opt test).modifiers = test.modifiers ++ [setContentTypeJSON] ∧
          (∀ (req : Request),
            (setContentTypeJSON req).getHeader "Content-Type" = some "application/json")) := by
  refine ⟨fun e => rfl, buildTestSet_error, ?_⟩
  intro s opt h test
  have hopt : opt = requestJSONOption s := by
    rw [RequestJSON] at h
    exact (Except.ok.injEq _ _ ▸ h).symm
  subst hopt
  refine ⟨rfl, rfl, fun req => ?_⟩
  simp [setContentTypeJSON, Request.setHeader, Request.getHeader]

/-- Witness for `requestJSON_spec`. -/
theorem requestJSON_spec_witness :
    RequestJSON (Except.error "boom") = Except.error "boom" ∧
    buildTestSet [("a", [Except.error "boom"])] ≠ Except.ok [] ∧
    (requestJSONOption "bod" (Test "w" [])).body = "bod" :=
  ⟨requestJSON_spec.1 "boom",
   requestJSON_spec.2.1 [("a", [Except.error "boom"])] "a" [Except.error "boom"] "boom"
     (by simp) (by simp) [],
   (requestJSON_spec.2.2 "bod" (requestJSONOption "bod") rfl (Test "w" [])).1⟩

/-- C8: with a `RequestHeader` option and then a `RequestJSON` option, the
registered modifiers are exactly the two header-setters in declaration order,
the runner applies them in that order, both headers are present on the
dispatched request, and when both options set the same header the
later-declared option's value wins. -/
theorem modifiers_last_write_wins (name s : String) (opt : TestOption) (req : Request)
    (tr : List Event)
    (hopt : RequestJSON (Except.ok s) = Except.ok opt) :
    (Test name [RequestHeader "X" "1", opt]).modifiers
        = [setHeaderModifier "X" "1", setContentTypeJSON] ∧
    (applyModsT 0 req tr (Test name [RequestHeader "X" "1", opt]).modifiers).1
        = applyModifiers (Test name [RequestHeader "X" "1", opt]).modifiers req ∧
    (applyModifiers (Test name [RequestHeader "X" "1", opt]).modifiers req).getHeader "X"
        = some "1" ∧
    (applyModifiers (Test name [RequestHeader "X" "1", opt]).modifiers req).getHeader
        "Content-Type" = some "application/json" ∧
    (applyModifiers (Test name [RequestHeader "Content-Type" "text/plain", opt]).modifiers
        req).getHeader "Content-Type" = some "application/json" := by
  have hopt2 : opt = requestJSONOption s := by
    rw [RequestJSON] at hopt
    exact (Except.ok.injEq _ _ ▸ hopt).symm
  subst hopt2
  refine ⟨rfl, applyModsT_fst _ 0 req tr, ?_, ?_, ?_⟩ <;>
    simp [applyModifiers, Test, RequestHeader, requestJSONOption, setHeaderModifier,
      setContentTypeJSON, Request.setHeader, Request.getHeader]

/-- Witness for `modifiers_last_write_wins`. -/
theorem modifiers_last_write_wins_witness :
    (applyModifiers (Test "w8" [RequestHeader "X" "1", requestJSONOption "b"]).modifiers
      wReqEmpty).getHeader "Content-Type" = some "application/json" :=
  (modifiers_last_write_wins "w8" "b" (requestJSONOption "b") wReqEmpty [] rfl).2.2.2.1

/-! Concrete `json.Unmarshal` and `regexp` models for witnesses. -/

def wParseNone : String → Option (List (String × JValue)) := fun _ => none

def wParseF5 : String → Option (List (String × JValue)) :=
  fun _ => some [("F", JValue.num 5)]

def wParseK7 : String → Option (List (String × JValue)) :=
  fun _ => some [("K", JValue.num 7)]

def wParseKStr : String → Option (List (String × JValue)) :=
  fun _ => some [("K", JValue.str "val")]

def wRx : RegexpModel := ⟨fun _ => false, fun _ _ => false, fun _ _ _ => rfl⟩

def wRecorder : ResponseRecorder := ⟨200, fun _ => none, "body"⟩

/-- C2 (counterexample): on a body that does not parse, the assertion of
`ResponseJsonField` reports TWO failures, not exactly one — the Go code does
not return after the parse-failure `Errorf`, and the subsequent equality check
against the nil map always fails as well. -/
theorem jsonField_parse_failure_counterexample :
    (responseJsonFieldAssert wParseNone "f" "v" TState.empty wRecorder).failures.length
      = 2 := rfl

/-- C2 (amended): for every captured response whose body does not parse as a
JSON object, the `ResponseJsonField` assertion reports the non-fatal parse
failure and then, instead of skipping the field-equality check, performs it
against the nil map and reports a second non-fatal failure (the absent value
never equals the expected string); the sub-test is not aborted fatally. -/
theorem jsonField_parse_failure (jsonParse : String → Option (List (String × JValue)))
    (field expected : String) (t : TState) (rr : ResponseRecorder)
    (hparse : jsonParse rr.body = none) :
    (responseJsonFieldAssert jsonParse field expected t rr).failures
      = t.failures ++
        ["Could not JSON parse response body: received " ++ rr.body,
         "Unexpected JSON field value for " ++ field ++ ": received " ++ showJ none
           ++ " expected " ++ expected] ∧
    (responseJsonFieldAssert jsonParse field expected t rr).fatal = t.fatal := by
  simp [responseJsonFieldAssert, hparse, jLookup, goEqStr, TState.errorf]

/-- Witness for `jsonField_parse_failure`. -/
theorem jsonField_parse_failure_witness :
    (responseJsonFieldAssert wParseNone "g" "w" TState.empty wRecorder).failures.length
      = 2 := by
  have h := jsonField_parse_failure wParseNone "g" "w" TState.empty wRecorder rfl
  rw [h.1]
  rfl

/-- C9: when the body parses as a JSON object whose value at the field is a
non-string JSON value, the `ResponseJsonField` assertion reports a failure for
every expected string, because the decoded value is compared against a string
(the interface comparison is false for every non-string dynamic type). -/
theorem jsonField_nonstring (jsonParse : String → Option (List (String × JValue)))
    (field expected : String) (t : TState) (rr : ResponseRecorder)
    (obj : List (String × JValue)) (v : JValue)
    (hparse : jsonParse rr.body = some obj)
    (hv : jLookup obj field = some v)
    (hns : ∀ s, v ≠ JValue.str s) :
    (responseJsonFieldAssert jsonParse field expected t rr).failures
      = t.failures ++
        ["Unexpected JSON field value for " ++ field ++ ": received "
          ++ showJ (some v) ++ " expected " ++ expected] ∧
    (responseJsonFieldAssert jsonParse field expected t rr).fatal = t.fatal := by
  have hgo : goEqStr (some v) expected = false := by
    cases v with
    | str s => exact absurd rfl (hns s)
    | num n => rfl
    | bool b => rfl
    | null => rfl
    | arr l => rfl
    | obj o => rfl
  simp [responseJsonFieldAssert, hparse, hv, hgo, TState.errorf]

/-- Witness for `jsonField_nonstring`: the body decodes F to the number 5 and
the expected string is its textual rendering "5"; the assertion still fails. -/
theorem jsonField_nonstring_witness :
    (responseJsonFieldAssert wParseF5 "F" "5" TState.empty wRecorder).failures.length
      = 1 := by
  have h := jsonField_nonstring wParseF5 "F" "5" TState.empty wRecorder
    [("F", JValue.num 5)] (JValue.num 5) rfl rfl (fun s h => JValue.noConfusion h)
  rw [h.1]
  rfl

/-- C7: when the body parses as a JSON object whose value at the key is
absent or not a string, the `ResponseJsonFieldPattern` assertion reports a
non-fatal failure, regardless of the pattern. -/
theorem jsonFieldPattern_nonstring (jsonParse : String → Option (List (String × JValue)))
    (rx : RegexpModel) (field pattern : String) (t : TState) (rr : ResponseRecorder)
    (obj : List (String × JValue))
    (hparse : jsonParse rr.body = some obj)
    (hns : ∀ s, jLookup obj field ≠ some (JValue.str s)) :
    (responseJsonFieldPatternAssert jsonParse rx field pattern t rr).failures
      = t.failures ++
        ["Unexepected missing or non-string JSON field value for " ++ field] ∧
    (responseJsonFieldPatternAssert jsonParse rx field pattern t rr).fatal = t.fatal := by
  cases hv : jLookup obj field with
  | none => simp [responseJsonFieldPatternAssert, hparse, hv, TState.errorf]
  | some v =>
    cases v with
    | str s => exact absurd hv (hns s)
    | num n => simp [responseJsonFieldPatternAssert, hparse, hv, TState.errorf]
    | bool b => simp [responseJsonFieldPatternAssert, hparse, hv, TState.errorf]
    | null => simp [responseJsonFieldPatternAssert, hparse, hv, TState.errorf]
    | arr l => simp [responseJsonFieldPatternAssert, hparse, hv, TState.errorf]
    | obj o => simp [responseJsonFieldPatternAssert, hparse, hv, TState.errorf]

/-- Witness for `jsonFieldPattern_nonstring`: a number at K fails for an
arbitrary pattern. -/
theorem jsonFieldPattern_nonstring_witness :
    (responseJsonFieldPatternAssert wParseK7 wRx "K" "^a+$" TState.empty
      wRecorder).failures.length = 1 := by
  have h := jsonFieldPattern_nonstring wParseK7 wRx "K" "^a+$" TState.empty wRecorder
    [("K", JValue.num 7)] rfl
    (fun s hs => by simp [jLookup] at hs)
  rw [h.1]
  rfl

/-- C10: for a pattern that does not compile, `regexp.MatchString` returns
false with a (discarded) error, so when the field value is a string the
`ResponseJsonFieldPattern` assertion reports the non-fatal mismatch failure;
it never panics (the embedded code path is total) and never aborts the
sub-test fatally. -/
theorem jsonFieldPattern_invalid_regex (jsonParse : String → Option (List (String × JValue)))
    (rx : RegexpModel) (field pattern : String) (t : TState) (rr : ResponseRecorder)
    (obj : List (String × JValue)) (actual : String)
    (hinv : rx.valid pattern = false)
    (hparse : jsonParse rr.body = some obj)
    (hstr : jLookup obj field = some (JValue.str actual)) :
    (responseJsonFieldPatternAssert jsonParse rx field pattern t rr).failures
      = t.failures ++
        ["Unexpected JSON field value for " ++ field ++ ": received "
          ++ actual ++ " expected pattern " ++ pattern] ∧
    (responseJsonFieldPatternAssert jsonParse rx field pattern t rr).fatal = t.fatal := by
  have hm := rx.invalid_no_match pattern actual hinv
  simp [responseJsonFieldPatternAssert, hparse, hstr, hm, TState.errorf]

/-- Witness for `jsonFieldPattern_invalid_regex`. -/
theorem jsonFieldPattern_invalid_regex_witness :
    (responseJsonFieldPatternAssert wParseKStr wRx "K" "([" TState.empty
      wRecorder).failures.length = 1 := by
  have h := jsonFieldPattern_invalid_regex wParseKStr wRx "K" "([" TState.empty wRecorder
    [("K", JValue.str "val")] "val" rfl rfl rfl
  rw [h.1]
  rfl

end Httptestutil
